import Mathlib

/-!
Verification development for the tasmota-sim device simulator.

This file shallowly embeds the parts of the simulator that its behavioural
contract talks about: the power-consumption profile model
(power_profiles.py), the broker connection retry logic (messaging.py), the
command-message DTO (models.py), the device command dispatcher (device.py)
and the HTTP control surface (web_server.py).

Modelling conventions:
- Python floats are modelled as exact rationals.
- Wall-clock readings (current second, hour of day, month), the values
  produced by random.uniform / random.choice / random.randint, and the value
  of math.sin at the cycle position are passed in explicitly as environment
  parameters, constrained in theorems only by the ranges the originals
  guarantee (uniform a b lies in [a, b]; sin lies in [-1, 1]).
- Stateful methods become pure functions returning the mutated state.
-/

namespace TasmotaSim

/-- Device categories (power_profiles.py, class DeviceCategory). -/
inductive DeviceCategory where
  | lighting
  | heating
  | appliance_small
  | appliance_large
  | electronics
  | motor
  | always_on
deriving DecidableEq

/-- The .value string of each category member. -/
def DeviceCategory.value : DeviceCategory → String
  | .lighting => "lighting"
  | .heating => "heating"
  | .appliance_small => "appliance_small"
  | .appliance_large => "appliance_large"
  | .electronics => "electronics"
  | .motor => "motor"
  | .always_on => "always_on"

/-- Power consumption profile for a device category
(power_profiles.py, dataclass PowerProfile), with the same field defaults. -/
structure PowerProfile where
  category : DeviceCategory
  name : String
  base_watts_min : ℚ
  base_watts_max : ℚ
  standby_watts : ℚ
  variation_factor : ℚ := 1/10
  cycle_minutes : Option ℕ := none
  time_of_day_factor : Bool := true
  seasonal_factor : Bool := false
  description : String := ""
deriving DecidableEq

/-- The catalog entry POWER_PROFILES[LIGHTING][0] ("LED Lampe"). -/
def ledLampe : PowerProfile :=
  { category := .lighting
    name := "LED Lampe"
    base_watts_min := 8
    base_watts_max := 15
    standby_watts := 2/10
    variation_factor := 5/100
    description := "Moderne LED-Beleuchtung" }

/-- The catalog entry POWER_PROFILES[APPLIANCE_LARGE][1] ("Kühlschrank"). -/
def kuehlschrank : PowerProfile :=
  { category := .appliance_large
    name := "Kühlschrank"
    base_watts_min := 120
    base_watts_max := 200
    standby_watts := 5
    variation_factor := 3/10
    cycle_minutes := some 45
    description := "Kühl-Gefrierkombination" }

/-- The catalog entry POWER_PROFILES[HEATING][0] ("Heizlüfter"). -/
def heizluefter : PowerProfile :=
  { category := .heating
    name := "Heizlüfter"
    base_watts_min := 1200
    base_watts_max := 2000
    standby_watts := 2
    variation_factor := 2/10
    cycle_minutes := some 15
    seasonal_factor := true
    description := "Elektrischer Heizlüfter" }

/-- Whether the second list is an initial segment of the first. -/
def listStartsWith : List Char → List Char → Bool
  | _, [] => true
  | [], _ :: _ => false
  | c :: cs, p :: ps => c == p && listStartsWith cs ps

/-- Whether pat occurs as a contiguous segment of s. -/
def listContainsSeg (pat : List Char) : List Char → Bool
  | [] => listStartsWith [] pat
  | c :: rest => listStartsWith (c :: rest) pat || listContainsSeg pat rest

/-- Python substring membership `pat in s`, for non-empty pat. -/
def strContains (s pat : String) : Bool :=
  listContainsSeg pat.data s.data

/-- Python str.lower(), on the ASCII range (the only case-carrying characters
of the profile names checked by the source). -/
def strLower (s : String) : String :=
  String.mk (s.data.map Char.toLower)

/-- Python str.upper(), on the ASCII range. -/
def strUpper (s : String) : String :=
  String.mk (s.data.map Char.toUpper)

/-- Accumulator loop of pyParseInt over decimal digits. -/
def digitsToNatAux : List Char → ℕ → Option ℕ
  | [], acc => some acc
  | c :: rest, acc =>
    if c.isDigit then digitsToNatAux rest (acc * 10 + (c.toNat - 48))
    else none

/-- Python int(str) on an optional minus sign followed by decimal digits
(the shape the /cm status parameter can take); anything else raises
ValueError, modelled by none. -/
def pyParseInt (s : String) : Option ℤ :=
  match s.data with
  | [] => none
  | c :: rest =>
    if c = '-' then
      match rest with
      | [] => none
      | _ :: _ => (digitsToNatAux rest 0).map (fun n => -(n : ℤ))
    else (digitsToNatAux (c :: rest) 0).map (fun n => (n : ℤ))

/-- Python str.split() with no separator: split on whitespace runs, dropping
empty tokens (acc holds the current token's characters in reverse). -/
def splitWsAux : List Char → List Char → List String
  | [], acc => if acc.isEmpty then [] else [String.mk acc.reverse]
  | c :: rest, acc =>
    if c.isWhitespace then
      if acc.isEmpty then splitWsAux rest []
      else String.mk acc.reverse :: splitWsAux rest []
    else splitWsAux rest (c :: acc)

/-- Python cmnd.split(). -/
def pySplit (s : String) : List String :=
  splitWsAux s.data []

/-- DevicePowerState._get_time_of_day_factor, as a function of the category
and of datetime.now().hour (0-23). Mirrors the hour-bucket tables of the
source: lighting peaks morning/evening, small appliances peak at meal hours,
electronics peak in the evening; every other category gets 1.0. -/
def get_time_of_day_factor (category : DeviceCategory) (current_hour : ℕ) : ℚ :=
  if category = .lighting then
    if (6 ≤ current_hour ∧ current_hour ≤ 8) ∨ (17 ≤ current_hour ∧ current_hour ≤ 23) then 12/10
    else if current_hour ≤ 5 then 3/10
    else 7/10
  else if category = .appliance_small then
    if current_hour = 7 ∨ current_hour = 8 ∨ current_hour = 12 ∨ current_hour = 13 ∨
        current_hour = 18 ∨ current_hour = 19 then 13/10
    else if current_hour ≤ 6 then 2/10
    else 1
  else if category = .electronics then
    if 18 ≤ current_hour ∧ current_hour ≤ 23 then 14/10
    else if 9 ≤ current_hour ∧ current_hour ≤ 17 then 11/10
    else if current_hour ≤ 6 then 3/10
    else 1
  else 1

/-- DevicePowerState._get_seasonal_factor, as a function of the profile and of
datetime.now().month (1-12): heating higher in winter, fan motors higher in
summer, everything else 1.0. -/
def get_seasonal_factor (profile : PowerProfile) (month : ℕ) : ℚ :=
  if profile.category = .heating then
    if month = 12 ∨ month = 1 ∨ month = 2 then 15/10
    else if month = 3 ∨ month = 11 then 12/10
    else if month = 6 ∨ month = 7 ∨ month = 8 then 3/10
    else 1
  else if profile.category = .motor ∧ strContains (strLower profile.name) "ventilator" = true then
    if month = 6 ∨ month = 7 ∨ month = 8 then 14/10
    else if month = 5 ∨ month = 9 then 11/10
    else 6/10
  else 1

/-- The category-specific curve DevicePowerState._get_cycle_factor applies to
the sine cycle value: heating has a mostly-on duty cycle, fridge-style names
a compressor pattern, everything else a smooth ±40 % swing floored at 0.2.
`cycle_value` is the value of math.sin(2π · new cycle position), passed in by
the environment; theorems only assume it lies in [-1, 1]. -/
def cycleFactorOf (profile : PowerProfile) (cycle_value : ℚ) : ℚ :=
  if profile.category = .heating then
    if cycle_value > -(3/10) then 1 + cycle_value * (2/10)
    else 1/10
  else if strContains (strLower profile.name) "kühl" = true ∨
      strContains (strLower profile.name) "fridge" = true then
    if cycle_value > 0 then 1 + cycle_value * (3/10)
    else 3/10
  else max (2/10) (1 + cycle_value * (4/10))

/-- DevicePowerState._get_cycle_factor: the factor paired with the advanced
cycle position (the source mutates self.cycle_position). The `cm = 0` guard
mirrors Python falsiness of 0 in `if not self.profile.cycle_minutes`. -/
def get_cycle_factor (profile : PowerProfile) (cycle_position : ℚ)
    (last_update now : ℚ) (sin_value : ℚ) : ℚ × ℚ :=
  match profile.cycle_minutes with
  | none => (1, cycle_position)
  | some cm =>
    if cm = 0 then (1, cycle_position)
    else
      let minutes_since_update := (now - last_update) / 60
      let cycle_increment := minutes_since_update / (cm : ℚ)
      let new_position := Int.fract (cycle_position + cycle_increment)
      (cycleFactorOf profile sin_value, new_position)

/-- DevicePowerState._add_variation: symmetric random noise of
± base_power · variation_factor, floored at 0. The random draw is modelled by
the environment function `uniform`. -/
def add_variation (variation_factor : ℚ) (base_power : ℚ) (uniform : ℚ → ℚ → ℚ) : ℚ :=
  let variation_range := base_power * variation_factor
  let variation := uniform (-variation_range) variation_range
  max 0 (base_power + variation)

/-- A model of random.uniform is in range when it returns a value of [a, b]
whenever a ≤ b. -/
def UniformInRange (uniform : ℚ → ℚ → ℚ) : Prop :=
  ∀ a b : ℚ, a ≤ b → a ≤ uniform a b ∧ uniform a b ≤ b

/-- Ambient inputs of one update_power_consumption call: the wall clock
(now, in seconds; hour of day; month), the sin value at the advanced cycle
position, and the random.uniform source. -/
structure UpdateEnv where
  now : ℚ
  hour : ℕ
  month : ℕ
  sinVal : ℚ
  uniform : ℚ → ℚ → ℚ

/-- Per-device power state (power_profiles.py, dataclass DevicePowerState),
with the same field defaults; last_update is a timestamp in seconds. -/
structure DevicePowerState where
  device_id : String
  profile : PowerProfile
  power_state : Bool := false
  current_watts : ℚ := 0
  cycle_position : ℚ := 0
  last_update : ℚ
  total_energy_kwh : ℚ := 0
deriving DecidableEq

/-- The watts and the cycle position computed by one update_power_consumption
call: standby power with variation when OFF, otherwise
base · time · seasonal · cycle factors with variation. -/
def DevicePowerState.newWattsAndPos (st : DevicePowerState) (env : UpdateEnv) : ℚ × ℚ :=
  if st.power_state = false then
    (add_variation st.profile.variation_factor st.profile.standby_watts env.uniform,
     st.cycle_position)
  else
    let base_power := env.uniform st.profile.base_watts_min st.profile.base_watts_max
    let time_factor :=
      if st.profile.time_of_day_factor then get_time_of_day_factor st.profile.category env.hour
      else 1
    let seasonal_factor :=
      if st.profile.seasonal_factor then get_seasonal_factor st.profile env.month else 1
    let cf := get_cycle_factor st.profile st.cycle_position st.last_update env.now env.sinVal
    let power := base_power * time_factor * seasonal_factor * cf.1
    (add_variation st.profile.variation_factor power env.uniform, cf.2)

/-- DevicePowerState.update_power_consumption: recompute current_watts, and
accumulate W·s into total_energy_kwh when the elapsed interval is positive. -/
def DevicePowerState.update_power_consumption (st : DevicePowerState) (env : UpdateEnv) :
    DevicePowerState :=
  let time_since_last := env.now - st.last_update
  let wp := st.newWattsAndPos env
  let total2 :=
    if 0 < time_since_last then
      st.total_energy_kwh + wp.1 * time_since_last / (1000 * 3600)
    else st.total_energy_kwh
  { st with
    current_watts := wp.1
    cycle_position := wp.2
    total_energy_kwh := total2
    last_update := env.now }

/-- One call against a single device's power state: either
update_power_consumption, or PowerProfileManager.set_device_power_state (set
the flag, then recompute). -/
inductive PowerStep where
  | update (env : UpdateEnv)
  | setPower (power : Bool) (env : UpdateEnv)

/-- Apply one PowerStep to a device state. -/
def applyPowerStep (st : DevicePowerState) : PowerStep → DevicePowerState
  | .update env => st.update_power_consumption env
  | .setPower b env => ({ st with power_state := b }).update_power_consumption env

/-- Apply a sequence of PowerSteps in order. -/
def applyPowerSteps (st : DevicePowerState) (steps : List PowerStep) : DevicePowerState :=
  steps.foldl applyPowerStep st

/-! The shared PowerProfileManager, restricted to a single device entry
(an Option DevicePowerState): every caller in web_server.py and device.py
touches exactly one device id. The random profile/initial-power draws made by
assign_profile_to_device when the entry does not exist yet are supplied by the
environment. -/

/-- PowerProfileManager._create_device_state: fresh state with standby watts
and a random initial power flag. -/
def create_device_state (device_id : String) (profile : PowerProfile)
    (initial_power : Bool) (createdAt : ℚ) : DevicePowerState :=
  { device_id := device_id
    profile := profile
    power_state := initial_power
    current_watts := profile.standby_watts
    last_update := createdAt }

/-- Ambient inputs of one manager call: the update environment plus the draws
used when a missing entry has to be created (random.choice over the profile
catalog, random.choice([True, False]), and the creation timestamp). -/
structure MgrEnv where
  upd : UpdateEnv
  assignProfile : PowerProfile
  assignPower : Bool
  createdAt : ℚ

/-- Create-on-first-reference behaviour shared by the manager entry points. -/
def ensure_device_state (device_id : String) (m : Option DevicePowerState)
    (env : MgrEnv) : DevicePowerState :=
  match m with
  | some st => st
  | none => create_device_state device_id env.assignProfile env.assignPower env.createdAt

/-- PowerProfileManager.set_device_power_state: set the flag, recompute, and
return the new consumption together with the stored entry. -/
def set_device_power_state (device_id : String) (m : Option DevicePowerState)
    (power : Bool) (env : MgrEnv) : ℚ × Option DevicePowerState :=
  let st0 := ensure_device_state device_id m env
  let st1 := { st0 with power_state := power }
  let st2 := st1.update_power_consumption env.upd
  (st2.current_watts, some st2)

/-- PowerProfileManager.get_device_power_consumption. -/
def get_device_power_consumption (device_id : String) (m : Option DevicePowerState)
    (env : MgrEnv) : ℚ × Option DevicePowerState :=
  let st0 := ensure_device_state device_id m env
  let st1 := st0.update_power_consumption env.upd
  (st1.current_watts, some st1)

/-- PowerProfileManager.get_device_total_energy: 0 for a missing entry
(without creating one), otherwise update first and return the total. -/
def get_device_total_energy (device_id : String) (m : Option DevicePowerState)
    (env : MgrEnv) : ℚ × Option DevicePowerState :=
  match m with
  | none => (0, none)
  | some st0 =>
    let st1 := st0.update_power_consumption env.upd
    (st1.total_energy_kwh, some st1)

/-- The dictionary returned by PowerProfileManager.get_device_info (the fields
the web server and device runtime read). -/
structure DeviceInfoDict where
  power_state : Bool
  profile_name : String
  profile_category : String
  current_watts : ℚ
  total_energy_kwh : ℚ
  standby_watts : ℚ
  max_watts : ℚ
  min_watts : ℚ

/-- PowerProfileManager.get_device_info: ensure the entry, update consumption,
and report the resulting fields. -/
def get_device_info (device_id : String) (m : Option DevicePowerState)
    (env : MgrEnv) : DeviceInfoDict × Option DevicePowerState :=
  let st0 := ensure_device_state device_id m env
  let st1 := st0.update_power_consumption env.upd
  ({ power_state := st1.power_state
     profile_name := st1.profile.name
     profile_category := st1.profile.category.value
     current_watts := st1.current_watts
     total_energy_kwh := st1.total_energy_kwh
     standby_watts := st1.profile.standby_watts
     max_watts := st1.profile.base_watts_max
     min_watts := st1.profile.base_watts_min }, some st1)

/-! Broker connection retry logic (messaging.py, AsyncTasmotaMessaging.connect).
The outcome of each connection attempt is an environment function
ok : ℕ → Bool; the model returns the boolean result, the number of attempts
performed, and the list of sleep delays (in seconds) in order. -/

/-- The retry_delay value before the n-th sleep: starts at 2 s and is then
multiplied by 1.5 and capped at 10 s after each failed attempt. -/
def backoffDelay : ℕ → ℚ
  | 0 => 2
  | n + 1 => min (backoffDelay n * (3/2)) 10

/-- The retry loop of connect(), with `fuel` remaining attempts out of
max_retries = 10, the index of the current attempt, and the current
retry_delay. On a failure at any attempt but the last the loop sleeps
retry_delay and multiplies it by 1.5 (capped at 10); on the last failure it
returns False with no sleep. -/
def connectFrom (ok : ℕ → Bool) : ℕ → ℕ → ℚ → Bool × ℕ × List ℚ
  | 0, attempt, _ => (false, attempt, [])
  | fuel + 1, attempt, retry_delay =>
    if ok attempt then (true, attempt + 1, [])
    else if fuel = 0 then (false, attempt + 1, [])
    else
      let rest := connectFrom ok fuel (attempt + 1) (min (retry_delay * (3/2)) 10)
      (rest.1, rest.2.1, retry_delay :: rest.2.2)

/-- AsyncTasmotaMessaging.connect: max_retries = 10, retry_delay starts at 2.0. -/
def connect (ok : ℕ → Bool) : Bool × ℕ × List ℚ :=
  connectFrom ok 10 0 2

/-! JSON documents and the CommandMessage DTO. -/

/-- JSON values (numbers as exact rationals). -/
inductive Json where
  | null
  | bool (b : Bool)
  | num (q : ℚ)
  | str (s : String)
  | arr (elems : List Json)
  | obj (fields : List (String × Json))

/-- Top-level keys of a JSON object (empty for non-objects). -/
def Json.topKeys : Json → List String
  | .obj fields => fields.map Prod.fst
  | _ => []

/-- Lookup of a top-level key of a JSON object. -/
def Json.getKey (j : Json) (key : String) : Option Json :=
  match j with
  | .obj fields => List.lookup key fields
  | _ => none

mutual
/-- Whether the given key occurs anywhere in the document (any nesting depth). -/
def Json.hasKeyDeep : Json → String → Bool
  | .obj fields, key => hasKeyDeepFields fields key
  | .arr elems, key => hasKeyDeepElems elems key
  | _, _ => false

/-- hasKeyDeep over the field list of an object. -/
def hasKeyDeepFields : List (String × Json) → String → Bool
  | [], _ => false
  | (k, v) :: rest, key => k == key || v.hasKeyDeep key || hasKeyDeepFields rest key

/-- hasKeyDeep over the elements of an array. -/
def hasKeyDeepElems : List Json → String → Bool
  | [], _ => false
  | v :: rest, key => v.hasKeyDeep key || hasKeyDeepElems rest key
end

/-- Extract a JSON string. -/
def Json.asStr : Json → Option String
  | .str s => some s
  | _ => none

/-- Extract the field list of a JSON object. -/
def Json.asObj : Json → Option (List (String × Json))
  | .obj fields => some fields
  | _ => none

/-- CommandMessage (models.py): device_id, command, payload dict, timestamp.
The payload is a JSON-representable dictionary. -/
structure CommandMessage where
  device_id : String
  command : String
  payload : List (String × Json) := []
  timestamp : String

/-- Serialisation of a CommandMessage to JSON (model_dump_json in
AsyncTasmotaMessaging.send_command), fields in declaration order. -/
def CommandMessage.toJson (m : CommandMessage) : Json :=
  .obj [("device_id", .str m.device_id), ("command", .str m.command),
        ("payload", .obj m.payload), ("timestamp", .str m.timestamp)]

/-- Decoding of a received message body (json.loads followed by
CommandMessage(**data) validation in start_consuming): the three string
fields are required, the payload dict defaults to empty when absent. -/
def CommandMessage.fromJson (j : Json) : Option CommandMessage :=
  match j with
  | .obj fields => do
    let device_id ← (← List.lookup "device_id" fields).asStr
    let command ← (← List.lookup "command" fields).asStr
    let payload ← (match List.lookup "payload" fields with
      | some v => v.asObj
      | none => some [])
    let timestamp ← (← List.lookup "timestamp" fields).asStr
    some { device_id := device_id, command := command, payload := payload,
           timestamp := timestamp }
  | _ => none

/-! HTTP control surface (web_server.py). -/

/-- HTTP Basic credentials as extracted by FastAPI's HTTPBasic security
dependency (a request with no Authorization header is rejected by the
framework before the handler is considered; one with credentials reaches
verify_credentials). -/
structure HTTPBasicCredentials where
  username : String
  password : String

/-- The configured credentials (env vars DEFAULT_USERNAME / DEFAULT_PASSWORD
with their in-code defaults). -/
structure AuthConfig where
  DEFAULT_USERNAME : String := "admin"
  DEFAULT_PASSWORD : String := "test1234!"

/-- verify_credentials: secrets.compare_digest is modelled by string equality
(its constant-time execution is a timing property, not a value property). -/
def verify_credentials (auth : AuthConfig) (credentials : HTTPBasicCredentials) : Bool :=
  let is_username_correct := credentials.username == auth.DEFAULT_USERNAME
  let is_password_correct := credentials.password == auth.DEFAULT_PASSWORD
  is_username_correct && is_password_correct

/-- Module-level device identity of the web server (env vars with their
defaults); hashId models the value of Python hash(DEVICE_ID), reduced to a
non-negative representative as all uses take a positive modulus. -/
structure ServerConfig where
  DEVICE_NAME : String := "tasmota-sim"
  DEVICE_ID : String := "unknown_device"
  DEVICE_IP : String := "127.0.0.1"
  hashId : ℕ := 0

/-- Mutable module state of the web server: the PowerState model instance
(power_state.POWER, initially "OFF") and the shared profile manager's entry
for DEVICE_ID. -/
structure ServerState where
  POWER : String := "OFF"
  manager : Option DevicePowerState := none

/-- Ambient inputs of one request: manager environments for the up-to-three
manager calls a handler performs, and the request-time clock readings. -/
structure WebEnv where
  mgr1 : MgrEnv
  mgr2 : MgrEnv
  mgr3 : MgrEnv
  uptime : ℕ
  nowStr : String
  startStr : String

/-- The dictionary built by get_realistic_device_data. -/
structure RealisticData where
  power_state : Bool
  energy_consumption : ℚ
  total_energy : ℚ
  profile_name : String
  profile_category : String
  voltage : ℚ
  current : ℚ

/-- get_realistic_device_data: three consecutive manager calls (get_device_info,
get_device_power_consumption, get_device_total_energy), then voltage from the
device-id hash and current = power / voltage. The except-branch fallback is
unreachable here since the modelled manager calls cannot raise. -/
def get_realistic_device_data (cfg : ServerConfig) (m : Option DevicePowerState)
    (env : WebEnv) : RealisticData × Option DevicePowerState :=
  let r1 := get_device_info cfg.DEVICE_ID m env.mgr1
  let r2 := get_device_power_consumption cfg.DEVICE_ID r1.2 env.mgr2
  let r3 := get_device_total_energy cfg.DEVICE_ID r2.2 env.mgr3
  let voltage : ℚ := 230 + (((cfg.hashId % 10 : ℕ) : ℚ) - 5)
  let current := if 0 < voltage then r2.1 / voltage else 0
  ({ power_state := r1.1.power_state
     energy_consumption := r2.1
     total_energy := r3.1
     profile_name := r1.1.profile_name
     profile_category := r1.1.profile_category
     voltage := voltage
     current := current }, r3.2)

/-- Two-digit zero-padded decimal (the :02d fields of the uptime string). -/
def fmt2 (n : ℕ) : String :=
  if n < 10 then "0" ++ toString n else toString n

/-- The f-string 0T{h:02d}:{m:02d}:{s:02d} built from the uptime seconds. -/
def uptimeStr (uptime : ℕ) : String :=
  "0T" ++ fmt2 (uptime / 3600) ++ ":" ++ fmt2 (uptime % 3600 / 60) ++ ":" ++ fmt2 (uptime % 60)

/-- Upper-case hex digit. -/
def hexDigit (n : ℕ) : Char :=
  if n < 10 then Char.ofNat (48 + n) else Char.ofNat (55 + n)

/-- Two-digit upper-case hex (the {...:02X} format field). -/
def hex2 (n : ℕ) : String :=
  String.mk [hexDigit (n / 16 % 16), hexDigit (n % 16)]

/-- The f-string AA:BB:CC:DD:EE:{hash(DEVICE_ID) % 256:02X}. -/
def macStr (hashId : ℕ) : String :=
  "AA:BB:CC:DD:EE:" ++ hex2 (hashId % 256)

/-- Python int() truncation toward zero of an exact rational. -/
def pyInt (q : ℚ) : ℤ :=
  if 0 ≤ q then ⌊q⌋ else ⌈q⌉

/-- Python round(x, n), modelled as exact decimal rounding (half up) of the
rational value; the float ties-to-even artefacts are not modelled. -/
def pyRound (x : ℚ) (n : ℕ) : ℚ :=
  ((round (x * 10 ^ n) : ℤ) : ℚ) / 10 ^ n

/-- The string "ON"/"OFF" of a boolean power state. -/
def onOffStr (b : Bool) : String :=
  if b then "ON" else "OFF"

/-- The Wifi sub-document (identical in the Status 11 and Status 0 bodies). -/
def wifiBlock (hashId : ℕ) : Json :=
  .obj [("AP", .num 1), ("SSId", .str "WiFi-Network"),
        ("BSSId", .str "AA:BB:CC:DD:EE:FF"), ("Channel", .num 6),
        ("Mode", .str "11n"), ("RSSI", .num ((hashId % 30 + 50 : ℕ) : ℚ)),
        ("Signal", .num (-((hashId % 30 + 50 : ℕ) : ℚ))), ("LinkCount", .num 1),
        ("Downtime", .str "0T00:00:03")]

/-- The StatusSTS sub-document (identical in the Status 11 and Status 0 bodies). -/
def statusSTSBlock (cfg : ServerConfig) (rd : RealisticData) (uptime : ℕ)
    (nowS : String) : Json :=
  .obj [("Time", .str nowS), ("Uptime", .str (uptimeStr uptime)),
        ("UptimeSec", .num (uptime : ℚ)), ("Heap", .num 25),
        ("SleepMode", .str "Dynamic"), ("Sleep", .num 50), ("LoadAvg", .num 19),
        ("MqttCount", .num 1), ("POWER", .str (onOffStr rd.power_state)),
        ("Wifi", wifiBlock cfg.hashId)]

/-- The StatusTIM sub-document (identical in the Status 7 and Status 0 bodies). -/
def statusTIMBlock (nowS : String) : Json :=
  .obj [("UTC", .str nowS), ("Local", .str nowS),
        ("StartDST", .str "2024-03-31T02:00:00"),
        ("EndDST", .str "2024-10-27T03:00:00"), ("Timezone", .str "+01:00"),
        ("Sunrise", .str "06:30"), ("Sunset", .str "18:45")]

/-- The StatusNET sub-document (identical in the Status 5 and Status 0 bodies). -/
def statusNETBlock (cfg : ServerConfig) : Json :=
  .obj [("Hostname", .str cfg.DEVICE_ID), ("IPAddress", .str cfg.DEVICE_IP),
        ("Gateway", .str "172.25.0.1"), ("Subnetmask", .str "255.255.0.0"),
        ("DNSServer1", .str "8.8.8.8"), ("DNSServer2", .str "8.8.4.4"),
        ("Mac", .str (macStr cfg.hashId)), ("Webserver", .num 2),
        ("HTTP_API", .num 1), ("WifiConfig", .num 4), ("WifiPower", .num 17)]

/-- get_status_response: the Tasmota-like status document per level. The
elif chain of the source handles levels 1-7 and 9-12; every other level
(0 included, and notably 8, which has no branch) produces the combined blob
of the final else branch. -/
def get_status_response (cfg : ServerConfig) (rd : RealisticData) (uptime : ℕ)
    (nowS startS : String) (level : ℤ) : Json :=
  if level = 1 then
    .obj [("Status", .obj
      [("Module", .num 1), ("DeviceName", .str cfg.DEVICE_NAME),
       ("FriendlyName", .arr [.str cfg.DEVICE_NAME]), ("Topic", .str cfg.DEVICE_ID),
       ("ButtonTopic", .str "0"), ("Power", .num (if rd.power_state then 1 else 0)),
       ("PowerOnState", .num 3), ("LedState", .num 1), ("LedMask", .str "FFFF"),
       ("SaveData", .num 1), ("SaveState", .num 1), ("SwitchTopic", .str "0"),
       ("SwitchMode", .arr [.num 0, .num 0, .num 0, .num 0, .num 0, .num 0, .num 0, .num 0]),
       ("ButtonRetain", .num 0), ("SwitchRetain", .num 0), ("SensorRetain", .num 0),
       ("PowerRetain", .num 0), ("InfoRetain", .num 0), ("StateRetain", .num 0)])]
  else if level = 2 then
    .obj [("StatusFWR", .obj
      [("Version", .str "12.5.0(tasmota)"), ("BuildDateTime", .str "2023-12-01T10:00:00"),
       ("Boot", .num 31), ("Core", .str "2_7_4"), ("SDK", .str "2.2.2-dev(38a443e)"),
       ("CpuFrequency", .num 80), ("Hardware", .str "ESP8266EX"),
       ("CR", .str "394/699")])]
  else if level = 3 then
    .obj [("StatusLOG", .obj
      [("SerialLog", .num 2), ("WebLog", .num 2), ("MqttLog", .num 0),
       ("SysLog", .num 0), ("LogHost", .str ""), ("LogPort", .num 514),
       ("SSId", .arr [.str "WiFi-Network", .str ""]), ("TelePeriod", .num 300),
       ("Resolution", .str "558180C0"),
       ("SetOption", .arr [.str "00008009", .str "2805C80001000600003C5A0A192800000000",
         .str "00000080", .str "00006000", .str "00004000"])])]
  else if level = 4 then
    .obj [("StatusMEM", .obj
      [("ProgramSize", .num 595), ("Free", .num 404), ("Heap", .num 25),
       ("ProgramFlashSize", .num 1024), ("FlashSize", .num 1024),
       ("FlashChipId", .str "1640E0"), ("FlashFrequency", .num 40), ("FlashMode", .num 3),
       ("Features", .arr [.str "00000809", .str "8F9AC787", .str "04368001",
         .str "000000CF", .str "010013C0", .str "C000F981", .str "00004004",
         .str "00001000"]),
       ("Drivers", .str "1,2,3,4,5,6,7,8,9,10,12,16,18,19,20,21,22,24,26,27,29,30,35,37,45"),
       ("Sensors", .str "1,2,3,4,5,6")])]
  else if level = 5 then
    .obj [("StatusNET", statusNETBlock cfg)]
  else if level = 6 then
    .obj [("StatusMQT", .obj
      [("MqttHost", .str "172.25.0.10"), ("MqttPort", .num 5672),
       ("MqttClientMask", .str cfg.DEVICE_ID), ("MqttClient", .str cfg.DEVICE_ID),
       ("MqttUser", .str "admin"), ("MqttCount", .num 1),
       ("MAX_PACKET_SIZE", .num 1200), ("KEEPALIVE", .num 30),
       ("SOCKET_TIMEOUT", .num 4)])]
  else if level = 7 then
    .obj [("StatusTIM", statusTIMBlock nowS)]
  else if level = 9 then
    .obj [("StatusPTH", .obj
      [("PowerLow", .num 0), ("PowerHigh", .num 0), ("VoltageLow", .num 0),
       ("VoltageHigh", .num 0), ("CurrentLow", .num 0), ("CurrentHigh", .num 0)])]
  else if level = 10 then
    .obj [("StatusSNS", .obj
      [("Time", .str nowS),
       ("ENERGY", .obj
         [("TotalStartTime", .str startS), ("Total", .num rd.total_energy),
          ("Yesterday", .num (rd.total_energy * (8/100))),
          ("Today", .num (rd.total_energy * (1/10))),
          ("Period", .num ((pyInt (rd.energy_consumption * 5) : ℤ) : ℚ)),
          ("Power", .num rd.energy_consumption),
          ("ApparentPower", .num (rd.energy_consumption * (105/100))),
          ("ReactivePower", .num (rd.energy_consumption * (1/10))),
          ("Factor", .num (95/100)), ("Voltage", .num rd.voltage),
          ("Current", .num rd.current)])])]
  else if level = 11 then
    .obj [("StatusSTS", statusSTSBlock cfg rd uptime nowS)]
  else if level = 12 then
    .obj [("StatusCRASH", .obj
      [("CrashDump", .str "No crash dump available"), ("StackTrace", .arr [])])]
  else
    .obj [("Status", .obj
      [("Module", .num 1), ("DeviceName", .str cfg.DEVICE_NAME),
       ("FriendlyName", .arr [.str cfg.DEVICE_NAME]), ("Topic", .str cfg.DEVICE_ID),
       ("ButtonTopic", .str "0"), ("Power", .num (if rd.power_state then 1 else 0)),
       ("PowerOnState", .num 3), ("LedState", .num 1), ("SaveData", .num 1),
       ("SaveState", .num 1), ("SwitchTopic", .str "0"), ("ButtonRetain", .num 0),
       ("PowerRetain", .num 0)]),
     ("StatusPRM", .obj
      [("Baudrate", .num 115200), ("SerialConfig", .str "8N1"),
       ("GroupTopic", .str "tasmotas"),
       ("OtaUrl", .str "http://ota.tasmota.com/tasmota/release-12.5.0/tasmota.bin.gz"),
       ("RestartReason", .str "Software/System restart"),
       ("Uptime", .str (uptimeStr uptime)), ("StartupUTC", .str startS),
       ("Sleep", .num 50), ("CfgHolder", .num 4617), ("BootCount", .num 45),
       ("BCResetTime", .str "2020-02-13T15:08:27"), ("SaveCount", .num 164),
       ("SaveAddress", .str "FB000")]),
     ("StatusFWR", .obj
      [("Version", .str "12.5.0(tasmota)"), ("BuildDateTime", .str "2023-12-01T10:00:00"),
       ("Boot", .num 31), ("Core", .str "2_7_4"), ("SDK", .str "2.2.2-dev(38a443e)"),
       ("CpuFrequency", .num 80), ("Hardware", .str "ESP8266EX")]),
     ("StatusLOG", .obj
      [("SerialLog", .num 2), ("WebLog", .num 2), ("MqttLog", .num 0),
       ("SysLog", .num 0), ("LogHost", .str ""), ("LogPort", .num 514),
       ("SSId", .arr [.str "WiFi-Network", .str ""]), ("TelePeriod", .num 300),
       ("Resolution", .str "558180C0")]),
     ("StatusMEM", .obj
      [("ProgramSize", .num 595), ("Free", .num 404), ("Heap", .num 25),
       ("ProgramFlashSize", .num 1024), ("FlashSize", .num 1024),
       ("FlashChipId", .str "1640E0"), ("FlashFrequency", .num 40),
       ("FlashMode", .num 3)]),
     ("StatusNET", statusNETBlock cfg),
     ("StatusMQT", .obj
      [("MqttHost", .str "172.25.0.10"), ("MqttPort", .num 5672),
       ("MqttClientMask", .str cfg.DEVICE_ID), ("MqttClient", .str cfg.DEVICE_ID),
       ("MqttUser", .str "admin"), ("MqttCount", .num 1),
       ("MAX_PACKET_SIZE", .num 1200), ("KEEPALIVE", .num 30)]),
     ("StatusTIM", statusTIMBlock nowS),
     ("StatusSTS", statusSTSBlock cfg rd uptime nowS)]

/-- The top-level keys of the combined level-0 blob. -/
def level0Keys : List String :=
  ["Status", "StatusPRM", "StatusFWR", "StatusLOG", "StatusMEM", "StatusNET",
   "StatusMQT", "StatusTIM", "StatusSTS"]

/-- The single top-level key of each narrower level-specific sub-document. -/
def expectedLevelKey : ℤ → List String
  | 1 => ["Status"]
  | 2 => ["StatusFWR"]
  | 3 => ["StatusLOG"]
  | 4 => ["StatusMEM"]
  | 5 => ["StatusNET"]
  | 6 => ["StatusMQT"]
  | 7 => ["StatusTIM"]
  | 9 => ["StatusPTH"]
  | 10 => ["StatusSNS"]
  | 11 => ["StatusSTS"]
  | 12 => ["StatusCRASH"]
  | _ => []

/-- HTTP handler outcome: a 200 JSON body, or an HTTPException with status
code and detail. -/
inductive HttpResponse where
  | ok (body : Json)
  | error (statusCode : ℕ) (detail : String)

/-- The GET /cm handler. The credentials dependency is evaluated exactly as in
the source: FastAPI injects the boolean returned by verify_credentials into
the unused parameter `_` and the handler body proceeds regardless of that
value (web_server.py line 415) — the binding below is likewise unused. -/
def cm (auth : AuthConfig) (cfg : ServerConfig) (credentials : HTTPBasicCredentials)
    (cmnd : String) (st : ServerState) (env : WebEnv) : HttpResponse × ServerState :=
  let _credsResult := verify_credentials auth credentials
  if cmnd = "" then (.error 400 "Command is required", st)
  else
    match pySplit cmnd with
    | [] => (.error 500 "IndexError: cmnd has no tokens", st)
    | first :: restParts =>
      let command := strUpper first
      let parameter := restParts.head?
      if command = "POWER" then
        match parameter with
        | none => (.ok (.obj [("POWER", .str st.POWER)]), st)
        | some p =>
          if strUpper p = "TOGGLE" then
            let new_state := !(st.POWER == "ON")
            let r := set_device_power_state cfg.DEVICE_ID st.manager new_state env.mgr1
            (.ok (.obj [("POWER", .str (onOffStr new_state))]),
             { POWER := onOffStr new_state, manager := r.2 })
          else if strUpper p = "ON" ∨ strUpper p = "1" ∨ strUpper p = "TRUE" then
            let r := set_device_power_state cfg.DEVICE_ID st.manager true env.mgr1
            (.ok (.obj [("POWER", .str "ON")]), { POWER := "ON", manager := r.2 })
          else if strUpper p = "OFF" ∨ strUpper p = "0" ∨ strUpper p = "FALSE" then
            let r := set_device_power_state cfg.DEVICE_ID st.manager false env.mgr1
            (.ok (.obj [("POWER", .str "OFF")]), { POWER := "OFF", manager := r.2 })
          else (.error 400 ("Invalid power parameter: " ++ p), st)
      else if command = "STATUS" then
        match parameter with
        | none =>
          let rd := get_realistic_device_data cfg st.manager env
          (.ok (get_status_response cfg rd.1 env.uptime env.nowStr env.startStr 0),
           { st with manager := rd.2 })
        | some p =>
          match pyParseInt p with
          | none => (.error 400 ("Invalid status level: " ++ p), st)
          | some level =>
            if level < 0 ∨ 12 < level then
              (.error 400 "Status level must be between 0 and 12", st)
            else
              let rd := get_realistic_device_data cfg st.manager env
              (.ok (get_status_response cfg rd.1 env.uptime env.nowStr env.startStr level),
               { st with manager := rd.2 })
      else (.error 400 ("Unknown command: " ++ command), st)

/-- The POST /power/\x7bstate\x7d handler. Its signature has no credentials
dependency at all in the source. -/
def set_power (cfg : ServerConfig) (state : String) (st : ServerState)
    (env : WebEnv) : HttpResponse × ServerState :=
  let state_lower := strLower state
  if state_lower = "on" then
    let r := set_device_power_state cfg.DEVICE_ID st.manager true env.mgr1
    (.ok (.obj [("power_state", .bool true),
                ("message", .str ("Power turned " ++ state_lower))]),
     { POWER := "ON", manager := r.2 })
  else if state_lower = "off" then
    let r := set_device_power_state cfg.DEVICE_ID st.manager false env.mgr1
    (.ok (.obj [("power_state", .bool false),
                ("message", .str ("Power turned " ++ state_lower))]),
     { POWER := "OFF", manager := r.2 })
  else if state_lower = "toggle" then
    let new_state := !(st.POWER == "ON")
    let r := set_device_power_state cfg.DEVICE_ID st.manager new_state env.mgr1
    (.ok (.obj [("power_state", .bool new_state),
                ("message", .str ("Power turned " ++ state_lower))]),
     { POWER := onOffStr new_state, manager := r.2 })
  else (.error 400 "Invalid power state. Use on, off, or toggle", st)

/-- The DeviceInfo response model of GET / and GET /status. -/
structure DeviceInfoResponse where
  Device : String
  Version : String
  IPAddress : String
  Status : String
  device_id : String
  device_name : String
  power_state : Bool
  energy_consumption : ℚ
  total_energy : ℚ
  profile_name : String
  profile_category : String
  voltage : ℚ
  current : ℚ

/-- The GET / handler (GET /status is an alias calling it). -/
def root (cfg : ServerConfig) (st : ServerState) (env : WebEnv) :
    DeviceInfoResponse × ServerState :=
  let rd := get_realistic_device_data cfg st.manager env
  ({ Device := cfg.DEVICE_NAME
     Version := "1.0.0"
     IPAddress := cfg.DEVICE_IP
     Status := "Online"
     device_id := cfg.DEVICE_ID
     device_name := cfg.DEVICE_NAME
     power_state := rd.1.power_state
     energy_consumption := rd.1.energy_consumption
     total_energy := rd.1.total_energy
     profile_name := rd.1.profile_name
     profile_category := rd.1.profile_category
     voltage := rd.1.voltage
     current := rd.1.current }, { st with manager := rd.2 })

/-! Device runtime command dispatcher (device.py, TasmotaDevice). -/

/-- TasmotaDeviceConfig (models.py), restricted to the fields the dispatcher
reads and writes. -/
structure TasmotaDeviceConfig where
  device_id : String
  device_name : String
  ip_address : String
  firmware_version : String := "12.5.0"
  power_state : Bool := false
  energy_consumption : ℚ := 0
  total_energy : ℚ := 0
deriving DecidableEq

/-- StatusResponse DTO (models.py). -/
structure StatusResponse where
  device_id : String
  device_name : String
  ip_address : String
  power_state : Bool
  energy_consumption : ℚ
  total_energy : ℚ
  firmware_version : String
  uptime : ℤ
  wifi_signal : ℤ := -45
deriving DecidableEq

/-- TelemetryData DTO (models.py), with its energy dictionary flattened into
named fields. -/
structure TelemetryData where
  device_id : String
  power_state : Bool
  power : ℚ
  apparent_power : ℚ
  reactive_power : ℚ
  factor : ℚ
  voltage : ℚ
  current : ℚ
  total : ℚ
  today : ℚ
  yesterday : ℚ
  timestamp : String
deriving DecidableEq

/-- The mutable pieces of a TasmotaDevice the dispatcher touches: its config,
the shared manager entry for its device id, and _energy_accumulator. -/
structure DeviceSim where
  config : TasmotaDeviceConfig
  manager : Option DevicePowerState
  energyAccumulator : ℚ := 0

/-- Ambient inputs of handling one command: manager environments for the
manager calls involved, the clock readings, and the random draws of the
publish paths. -/
structure DeviceEnv where
  mgrSet : MgrEnv
  mgrInfo : MgrEnv
  mgrCons : MgrEnv
  mgrTotal : MgrEnv
  uptime : ℤ
  wifiSignal : ℤ
  uniform : ℚ → ℚ → ℚ
  sameDay : Bool
  timestamp : String

/-- A message published to the broker by the dispatcher. -/
inductive Published where
  | status (s : StatusResponse)
  | telemetry (t : TelemetryData)

/-- TasmotaDevice._publish_status: a StatusResponse built from the config,
the uptime and a random wifi signal (randint(-60, -30)). -/
def publish_status (d : DeviceSim) (env : DeviceEnv) : StatusResponse :=
  { device_id := d.config.device_id
    device_name := d.config.device_name
    ip_address := d.config.ip_address
    power_state := d.config.power_state
    energy_consumption := d.config.energy_consumption
    total_energy := d.config.total_energy
    firmware_version := d.config.firmware_version
    uptime := env.uptime
    wifi_signal := env.wifiSignal }

/-- TasmotaDevice._set_power_state: set the config flag, push the state into
the shared manager (recomputing consumption), store the new consumption, and
fetch device info for logging (a further manager update). -/
def set_power_state (d : DeviceSim) (state : Bool) (env : DeviceEnv) : DeviceSim :=
  let cfg1 := { d.config with power_state := state }
  let r := set_device_power_state d.config.device_id d.manager state env.mgrSet
  let cfg2 := { cfg1 with energy_consumption := r.1 }
  let info := get_device_info d.config.device_id r.2 env.mgrInfo
  { d with config := cfg2, manager := info.2 }

/-- TasmotaDevice._update_energy: refresh consumption from the manager, and
take over the manager's tracked total when it is positive. -/
def update_energy (d : DeviceSim) (env : DeviceEnv) : DeviceSim :=
  let rc := get_device_power_consumption d.config.device_id d.manager env.mgrCons
  let cfg1 := { d.config with energy_consumption := rc.1 }
  let rt := get_device_total_energy d.config.device_id rc.2 env.mgrTotal
  if 0 < rt.1 then
    { config := { cfg1 with total_energy := rt.1 }
      manager := rt.2
      energyAccumulator := rt.1 }
  else
    { config := cfg1, manager := rt.2, energyAccumulator := d.energyAccumulator }

/-- TasmotaDevice._publish_telemetry: update energy, then build the
TelemetryData with voltage 230 ± 5 V noise and the rounding of the source. -/
def publish_telemetry (d : DeviceSim) (env : DeviceEnv) : DeviceSim × TelemetryData :=
  let d1 := update_energy d env
  let voltage := 230 + env.uniform (-5) 5
  let current := if 0 < voltage then d1.config.energy_consumption / voltage else 0
  let today_energy := if env.sameDay then d1.energyAccumulator else 0
  (d1,
   { device_id := d1.config.device_id
     power_state := d1.config.power_state
     power := pyRound d1.config.energy_consumption 2
     apparent_power := pyRound (d1.config.energy_consumption * (105/100)) 2
     reactive_power := pyRound (d1.config.energy_consumption * (1/10)) 2
     factor := pyRound (env.uniform (85/100) (95/100)) 2
     voltage := pyRound voltage 1
     current := pyRound current 3
     total := pyRound d1.config.total_energy 3
     today := pyRound today_energy 3
     yesterday := pyRound (env.uniform (1/10) 2) 3
     timestamp := env.timestamp })

/-- TasmotaDevice._handle_command: the synchronous command dispatcher.
power_on / power_off set the state and immediately publish a status; status
publishes a status; energy publishes telemetry; anything else is logged and
ignored. Returns the new device state and the messages published, in order. -/
def handle_command (d : DeviceSim) (msg : CommandMessage) (env : DeviceEnv) :
    DeviceSim × List Published :=
  if msg.command = "power_on" then
    let d1 := set_power_state d true env
    (d1, [.status (publish_status d1 env)])
  else if msg.command = "power_off" then
    let d1 := set_power_state d false env
    (d1, [.status (publish_status d1 env)])
  else if msg.command = "status" then
    (d, [.status (publish_status d env)])
  else if msg.command = "energy" then
    let r := publish_telemetry d env
    (r.1, [.telemetry r.2])
  else (d, [])

/-- In-order processing of a queue of commands (the consumer dispatches one
message at a time); the published messages are concatenated in order. -/
def process_commands (d : DeviceSim) :
    List (CommandMessage × DeviceEnv) → DeviceSim × List Published
  | [] => (d, [])
  | (msg, env) :: rest =>
    let r1 := handle_command d msg env
    let r2 := process_commands r1.1 rest
    (r2.1, r1.2 ++ r2.2)

/-! Concrete example inputs used by closed witness and counterexample
theorems. -/

/-- Example update environment: noon in May, sin value 0, and a uniform draw
that returns the lower endpoint. -/
def exampleUpdateEnv : UpdateEnv :=
  { now := 0, hour := 12, month := 5, sinVal := 0, uniform := fun a _ => a }

/-- Example manager environment built over exampleUpdateEnv. -/
def exampleMgrEnv : MgrEnv :=
  { upd := exampleUpdateEnv, assignProfile := ledLampe, assignPower := false,
    createdAt := 0 }

/-- Example web request environment. -/
def exampleWebEnv : WebEnv :=
  { mgr1 := exampleMgrEnv, mgr2 := exampleMgrEnv, mgr3 := exampleMgrEnv,
    uptime := 0, nowStr := "2024-01-01T12:00:00", startStr := "2024-01-01T00:00:00" }

/-- Example server state: the startup POWER value and an LED-lamp manager
entry that is switched off. -/
def exampleServerState : ServerState :=
  { POWER := "OFF", manager := some (create_device_state "unknown_device" ledLampe false 0) }

/-- Example realistic-data record. -/
def exampleRd : RealisticData :=
  { power_state := true, energy_consumption := 100, total_energy := 50,
    profile_name := "LED Lampe", profile_category := "lighting",
    voltage := 230, current := 100/230 }

/-- Device state of the Kühlschrank profile, switched on, at cycle position 0,
last updated at timestamp 0. -/
def fridgeState : DevicePowerState :=
  { device_id := "plug-001", profile := kuehlschrank, power_state := true,
    current_watts := 5, cycle_position := 0, last_update := 0, total_energy_kwh := 0 }

/-- Update environment for fridgeState 675 s (11.25 min) later: the cycle
position advances by 11.25/45 = 0.25, where sin(2π · 0.25) = 1 exactly; both
uniform draws return the upper endpoint of their range. -/
def fridgeEnv : UpdateEnv :=
  { now := 675, hour := 10, month := 5, sinVal := 1, uniform := fun _ b => b }

/-- Example device runtime with an LED-lamp manager entry. -/
def exampleDeviceSim : DeviceSim :=
  { config := { device_id := "unknown_device", device_name := "tasmota-sim",
                ip_address := "127.0.0.1" }
    manager := some (create_device_state "unknown_device" ledLampe false 0) }

/-- Example device command environment. -/
def exampleDeviceEnv : DeviceEnv :=
  { mgrSet := exampleMgrEnv, mgrInfo := exampleMgrEnv, mgrCons := exampleMgrEnv,
    mgrTotal := exampleMgrEnv, uptime := 0, wifiSignal := -45,
    uniform := fun a _ => a, sameDay := true, timestamp := "t0" }

/-- Example power_on command message. -/
def examplePowerOnMsg : CommandMessage :=
  { device_id := "unknown_device", command := "power_on", timestamp := "t0" }

/-- An LED-lamp device state that is switched off (all other fields default). -/
def exampleOffState : DevicePowerState :=
  { device_id := "d1", profile := ledLampe, last_update := 0 }

/-- An LED-lamp device state that is switched on. -/
def exampleOnState : DevicePowerState :=
  { device_id := "d1", profile := ledLampe, power_state := true, last_update := 0 }

/-! Theorems. -/

theorem add_variation_nonneg (vf b : ℚ) (u : ℚ → ℚ → ℚ) :
    0 ≤ add_variation vf b u :=
  le_max_left 0 _

theorem add_variation_le (vf b : ℚ) (u : ℚ → ℚ → ℚ) (hb : 0 ≤ b) (hvf : 0 ≤ vf)
    (hu : UniformInRange u) : add_variation vf b u ≤ b * (1 + vf) := by
  have hr : 0 ≤ b * vf := mul_nonneg hb hvf
  have h2 := (hu (-(b * vf)) (b * vf) (by linarith)).2
  show max 0 (b + u (-(b * vf)) (b * vf)) ≤ b * (1 + vf)
  exact max_le (by nlinarith) (by nlinarith)

theorem get_time_of_day_factor_nonneg (c : DeviceCategory) (h : ℕ) :
    0 ≤ get_time_of_day_factor c h := by
  unfold get_time_of_day_factor
  split_ifs <;> norm_num

theorem get_seasonal_factor_nonneg (p : PowerProfile) (month : ℕ) :
    0 ≤ get_seasonal_factor p month := by
  unfold get_seasonal_factor
  split_ifs <;> norm_num

theorem cycleFactorOf_nonneg (p : PowerProfile) (s : ℚ) :
    0 ≤ cycleFactorOf p s := by
  unfold cycleFactorOf
  split_ifs with h1 h2 h3 h4
  · linarith
  · norm_num
  · linarith
  · norm_num
  · exact le_trans (by norm_num) (le_max_left _ _)

theorem get_cycle_factor_nonneg (p : PowerProfile) (pos last now s : ℚ) :
    0 ≤ (get_cycle_factor p pos last now s).1 := by
  rcases hc : p.cycle_minutes with _ | cm
  · simp [get_cycle_factor, hc]
  · by_cases h0 : cm = 0
    · simp [get_cycle_factor, hc, h0]
    · simp only [get_cycle_factor, hc]
      rw [if_neg h0]
      exact cycleFactorOf_nonneg p s

theorem newWatts_nonneg (st : DevicePowerState) (env : UpdateEnv) :
    0 ≤ (st.newWattsAndPos env).1 := by
  unfold DevicePowerState.newWattsAndPos
  split_ifs <;> exact add_variation_nonneg _ _ _

theorem update_preserves_power_state (st : DevicePowerState) (env : UpdateEnv) :
    (st.update_power_consumption env).power_state = st.power_state := rfl

theorem update_total_mono (st : DevicePowerState) (env : UpdateEnv) :
    st.total_energy_kwh ≤ (st.update_power_consumption env).total_energy_kwh := by
  show st.total_energy_kwh ≤
    (if 0 < env.now - st.last_update then
      st.total_energy_kwh + (st.newWattsAndPos env).1 * (env.now - st.last_update) / (1000 * 3600)
    else st.total_energy_kwh)
  split_ifs with h
  · have hw := newWatts_nonneg st env
    have hnn : 0 ≤ (st.newWattsAndPos env).1 * (env.now - st.last_update) / (1000 * 3600) :=
      div_nonneg (mul_nonneg hw (le_of_lt h)) (by norm_num)
    linarith
  · exact le_refl _

/-- C3: total_energy_kwh is non-decreasing across every sequence of
update_power_consumption and set_device_power_state calls on a device power
state (here proved without even needing the non-decreasing-clock assumption:
a non-positive elapsed interval simply skips the accumulation); in
particular, switching power off and then on again never resets or lowers
total_energy_kwh. -/
theorem total_energy_kwh_monotone :
    (∀ (st : DevicePowerState) (steps : List PowerStep),
      st.total_energy_kwh ≤ (applyPowerSteps st steps).total_energy_kwh) ∧
    (∀ (st : DevicePowerState) (e1 e2 : UpdateEnv),
      st.total_energy_kwh ≤
        (applyPowerSteps st
          [PowerStep.setPower false e1, PowerStep.setPower true e2]).total_energy_kwh) := by
  have hstep : ∀ (st : DevicePowerState) (s : PowerStep),
      st.total_energy_kwh ≤ (applyPowerStep st s).total_energy_kwh := by
    intro st s
    cases s with
    | update env => exact update_total_mono st env
    | setPower b env => exact update_total_mono { st with power_state := b } env
  have hseq : ∀ (steps : List PowerStep) (st : DevicePowerState),
      st.total_energy_kwh ≤ (applyPowerSteps st steps).total_energy_kwh := by
    intro steps
    induction steps with
    | nil => intro st; exact le_refl _
    | cons s rest ih =>
      intro st
      exact le_trans (hstep st s) (ih (applyPowerStep st s))
  exact ⟨fun st steps => hseq steps st, fun st e1 e2 => hseq _ st⟩

/-- C8: for every profile, update_power_consumption on a state with
power_state = false returns a wattage within
[0, standby_watts · (1 + variation_factor)], provided the profile data are
non-negative and the uniform draw stays in its range. -/
theorem update_off_consumption_bounded (st : DevicePowerState) (env : UpdateEnv)
    (hoff : st.power_state = false)
    (hsb : 0 ≤ st.profile.standby_watts)
    (hvf : 0 ≤ st.profile.variation_factor)
    (hu : UniformInRange env.uniform) :
    0 ≤ (st.update_power_consumption env).current_watts ∧
    (st.update_power_consumption env).current_watts ≤
      st.profile.standby_watts * (1 + st.profile.variation_factor) := by
  have hcw : (st.update_power_consumption env).current_watts = (st.newWattsAndPos env).1 := rfl
  have h1 : (st.newWattsAndPos env).1 =
      add_variation st.profile.variation_factor st.profile.standby_watts env.uniform := by
    unfold DevicePowerState.newWattsAndPos
    rw [if_pos hoff]
  rw [hcw, h1]
  exact ⟨add_variation_nonneg _ _ _, add_variation_le _ _ _ hsb hvf hu⟩

/-- Witness for C8 at the LED-lamp profile in its default (off) state. -/
theorem update_off_consumption_bounded_witness :
    0 ≤ (exampleOffState.update_power_consumption exampleUpdateEnv).current_watts ∧
    (exampleOffState.update_power_consumption exampleUpdateEnv).current_watts ≤
      exampleOffState.profile.standby_watts * (1 + exampleOffState.profile.variation_factor) :=
  update_off_consumption_bounded exampleOffState exampleUpdateEnv rfl
    (by norm_num [exampleOffState, ledLampe]) (by norm_num [exampleOffState, ledLampe])
    (fun a b h => ⟨le_refl a, h⟩)

/-- C2 (amended): for every profile with power_state = true, the returned
wattage lies within
[0, base_watts_max · time factor · seasonal factor · cycle factor
 · (1 + variation_factor)] — the cycle factor must appear in the bound as
well (see the counterexample); the wattage is in particular never negative. -/
theorem update_on_consumption_bounded (st : DevicePowerState) (env : UpdateEnv)
    (hon : st.power_state = true)
    (hmin : 0 ≤ st.profile.base_watts_min)
    (hminmax : st.profile.base_watts_min ≤ st.profile.base_watts_max)
    (hvf : 0 ≤ st.profile.variation_factor)
    (hu : UniformInRange env.uniform) :
    0 ≤ (st.update_power_consumption env).current_watts ∧
    (st.update_power_consumption env).current_watts ≤
      st.profile.base_watts_max *
        (if st.profile.time_of_day_factor then
          get_time_of_day_factor st.profile.category env.hour else 1) *
        (if st.profile.seasonal_factor then
          get_seasonal_factor st.profile env.month else 1) *
        (get_cycle_factor st.profile st.cycle_position st.last_update env.now env.sinVal).1 *
        (1 + st.profile.variation_factor) := by
  have hcw : (st.update_power_consumption env).current_watts = (st.newWattsAndPos env).1 := rfl
  have hfalse : ¬ (st.power_state = false) := by simp [hon]
  have h1 : (st.newWattsAndPos env).1 =
      add_variation st.profile.variation_factor
        (env.uniform st.profile.base_watts_min st.profile.base_watts_max *
          (if st.profile.time_of_day_factor then
            get_time_of_day_factor st.profile.category env.hour else 1) *
          (if st.profile.seasonal_factor then
            get_seasonal_factor st.profile env.month else 1) *
          (get_cycle_factor st.profile st.cycle_position st.last_update env.now env.sinVal).1)
        env.uniform := by
    unfold DevicePowerState.newWattsAndPos
    rw [if_neg hfalse]
  rw [hcw, h1]
  have hbase := hu st.profile.base_watts_min st.profile.base_watts_max hminmax
  have hb0 : 0 ≤ env.uniform st.profile.base_watts_min st.profile.base_watts_max :=
    le_trans hmin hbase.1
  have htf0 : 0 ≤ (if st.profile.time_of_day_factor then
      get_time_of_day_factor st.profile.category env.hour else 1) := by
    split_ifs
    · exact get_time_of_day_factor_nonneg _ _
    · exact zero_le_one
  have hsf0 : 0 ≤ (if st.profile.seasonal_factor then
      get_seasonal_factor st.profile env.month else 1) := by
    split_ifs
    · exact get_seasonal_factor_nonneg _ _
    · exact zero_le_one
  have hcf0 : 0 ≤
      (get_cycle_factor st.profile st.cycle_position st.last_update env.now env.sinVal).1 :=
    get_cycle_factor_nonneg _ _ _ _ _
  have hB0 : 0 ≤ env.uniform st.profile.base_watts_min st.profile.base_watts_max *
      (if st.profile.time_of_day_factor then
        get_time_of_day_factor st.profile.category env.hour else 1) *
      (if st.profile.seasonal_factor then
        get_seasonal_factor st.profile env.month else 1) *
      (get_cycle_factor st.profile st.cycle_position st.last_update env.now env.sinVal).1 :=
    mul_nonneg (mul_nonneg (mul_nonneg hb0 htf0) hsf0) hcf0
  refine ⟨add_variation_nonneg _ _ _, ?_⟩
  have hstep1 := add_variation_le st.profile.variation_factor _ env.uniform hB0 hvf hu
  have hBM : env.uniform st.profile.base_watts_min st.profile.base_watts_max *
      (if st.profile.time_of_day_factor then
        get_time_of_day_factor st.profile.category env.hour else 1) *
      (if st.profile.seasonal_factor then
        get_seasonal_factor st.profile env.month else 1) *
      (get_cycle_factor st.profile st.cycle_position st.last_update env.now env.sinVal).1 ≤
      st.profile.base_watts_max *
      (if st.profile.time_of_day_factor then
        get_time_of_day_factor st.profile.category env.hour else 1) *
      (if st.profile.seasonal_factor then
        get_seasonal_factor st.profile env.month else 1) *
      (get_cycle_factor st.profile st.cycle_position st.last_update env.now env.sinVal).1 :=
    mul_le_mul_of_nonneg_right
      (mul_le_mul_of_nonneg_right (mul_le_mul_of_nonneg_right hbase.2 htf0) hsf0) hcf0
  have h1vf : (0 : ℚ) ≤ 1 + st.profile.variation_factor := by linarith
  exact le_trans hstep1 (mul_le_mul_of_nonneg_right hBM h1vf)

/-- Witness for C2 at the LED-lamp profile, switched on, at noon in May. -/
theorem update_on_consumption_bounded_witness :
    0 ≤ (exampleOnState.update_power_consumption exampleUpdateEnv).current_watts ∧
    (exampleOnState.update_power_consumption exampleUpdateEnv).current_watts ≤
      exampleOnState.profile.base_watts_max *
        (if exampleOnState.profile.time_of_day_factor then
          get_time_of_day_factor exampleOnState.profile.category exampleUpdateEnv.hour else 1) *
        (if exampleOnState.profile.seasonal_factor then
          get_seasonal_factor exampleOnState.profile exampleUpdateEnv.month else 1) *
        (get_cycle_factor exampleOnState.profile exampleOnState.cycle_position
          exampleOnState.last_update exampleUpdateEnv.now exampleUpdateEnv.sinVal).1 *
        (1 + exampleOnState.profile.variation_factor) :=
  update_on_consumption_bounded exampleOnState exampleUpdateEnv rfl
    (by norm_num [exampleOnState, ledLampe]) (by norm_num [exampleOnState, ledLampe])
    (by norm_num [exampleOnState, ledLampe]) (fun a b h => ⟨le_refl a, h⟩)

/-- C2 counterexample: for the catalog Kühlschrank profile (cycling
compressor), with all draws inside their stated ranges and
sin(2π · 0.25) = 1, update_power_consumption returns 338 W, which exceeds the
bound base_watts_max · max(time factor, seasonal factor) ·
(1 + variation_factor) = 200 · 1 · 1.3 = 260 claimed by the specification:
the claimed range omits the cycle factor (1.3 for the fridge compressor). -/
theorem update_on_exceeds_claimed_bound :
    fridgeState.power_state = true ∧
    UniformInRange fridgeEnv.uniform ∧
    (fridgeState.update_power_consumption fridgeEnv).current_watts = 338 ∧
    fridgeState.profile.base_watts_max *
      max (get_time_of_day_factor fridgeState.profile.category fridgeEnv.hour)
        (get_seasonal_factor fridgeState.profile fridgeEnv.month) *
      (1 + fridgeState.profile.variation_factor) = 260 ∧
    ¬ ((338 : ℚ) ≤ 260) := by
  have hh : DeviceCategory.appliance_large ≠ DeviceCategory.heating := by decide
  have hl : DeviceCategory.appliance_large ≠ DeviceCategory.lighting := by decide
  have hs : DeviceCategory.appliance_large ≠ DeviceCategory.appliance_small := by decide
  have he : DeviceCategory.appliance_large ≠ DeviceCategory.electronics := by decide
  have hm : DeviceCategory.appliance_large ≠ DeviceCategory.motor := by decide
  have hkk : strContains (strLower "Kühlschrank") "kühl" = true := by decide
  refine ⟨rfl, fun a b h => ⟨h, le_refl b⟩, ?_, ?_, by norm_num⟩
  · show (fridgeState.newWattsAndPos fridgeEnv).1 = 338
    norm_num [DevicePowerState.newWattsAndPos, fridgeState, fridgeEnv, kuehlschrank,
      get_cycle_factor, cycleFactorOf, get_time_of_day_factor, add_variation,
      hh, hl, hs, he, hkk, max_def]
  · norm_num [fridgeState, fridgeEnv, kuehlschrank, get_time_of_day_factor,
      get_seasonal_factor, hh, hl, hs, he, hm, max_def]

theorem connectFrom_attempts_le (ok : ℕ → Bool) :
    ∀ (fuel a : ℕ) (d : ℚ), (connectFrom ok fuel a d).2.1 ≤ a + fuel := by
  intro fuel
  induction fuel with
  | zero => intro a d; simp [connectFrom]
  | succ fuel ih =>
    intro a d
    simp only [connectFrom]
    by_cases hok : ok a
    · simp [hok]
    · simp only [hok, Bool.false_eq_true, if_false]
      by_cases hf : fuel = 0
      · simp [hf]
      · simp only [hf, if_false]
        have := ih (a + 1) (min (d * (3/2)) 10)
        omega

theorem connectFrom_true_iff (ok : ℕ → Bool) :
    ∀ (fuel a : ℕ) (d : ℚ),
      (connectFrom ok fuel a d).1 = true ↔ ∃ i, a ≤ i ∧ i < a + fuel ∧ ok i = true := by
  intro fuel
  induction fuel with
  | zero =>
    intro a d
    simp only [connectFrom]
    constructor
    · intro h; cases h
    · rintro ⟨i, h1, h2, _⟩; omega
  | succ fuel ih =>
    intro a d
    simp only [connectFrom]
    by_cases hok : ok a
    · simp only [hok, if_true]
      constructor
      · intro _; exact ⟨a, le_refl a, by omega, hok⟩
      · intro _; trivial
    · simp only [hok, Bool.false_eq_true, if_false]
      by_cases hf : fuel = 0
      · subst hf
        simp only [if_pos rfl]
        constructor
        · intro h; cases h
        · rintro ⟨i, h1, h2, h3⟩
          have : i = a := by omega
          subst this
          rw [h3] at hok
          exact absurd rfl hok
      · simp only [hf, if_false]
        rw [ih (a + 1) (min (d * (3/2)) 10)]
        constructor
        · rintro ⟨i, h1, h2, h3⟩
          exact ⟨i, by omega, by omega, h3⟩
        · rintro ⟨i, h1, h2, h3⟩
          refine ⟨i, ?_, by omega, h3⟩
          rcases Nat.eq_or_lt_of_le h1 with h | h
          · subst h; rw [h3] at hok; exact absurd rfl hok
          · omega

theorem connectFrom_first_success (ok : ℕ → Bool) (k : ℕ) (hok : ok k = true) :
    ∀ (fuel a : ℕ), a ≤ k → k < a + fuel → (∀ j, a ≤ j → j < k → ok j = false) →
      connectFrom ok fuel a (backoffDelay a) =
        (true, k + 1, (List.range (k - a)).map (fun j => backoffDelay (a + j))) := by
  intro fuel
  induction fuel with
  | zero => intro a h1 h2 _; omega
  | succ fuel ih =>
    intro a h1 h2 hprev
    by_cases hak : a = k
    · subst hak
      simp only [connectFrom, hok, if_true]
      rw [Nat.sub_self]
      rfl
    · have halt : a < k := lt_of_le_of_ne h1 hak
      have hoka : ok a = false := hprev a (le_refl a) halt
      have hf : fuel ≠ 0 := by omega
      simp only [connectFrom, hoka, Bool.false_eq_true, if_false, hf]
      rw [show min (backoffDelay a * (3/2)) 10 = backoffDelay (a + 1) from rfl]
      rw [ih (a + 1) (by omega) (by omega) (fun j hj1 hj2 => hprev j (by omega) hj2)]
      have hm : k - a = (k - (a + 1)) + 1 := by omega
      rw [hm, List.range_succ_eq_map, List.map_cons, List.map_map]
      rw [Nat.add_zero]
      refine congrArg (fun l => ((true : Bool), k + 1, backoffDelay a :: l)) ?_
      refine List.map_congr_left ?_
      intro j _
      show backoffDelay (a + 1 + j) = backoffDelay (a + (j + 1))
      rw [Nat.add_comm j 1, ← Nat.add_assoc]

theorem connectFrom_all_fail (ok : ℕ → Bool) :
    ∀ (fuel a : ℕ), fuel ≠ 0 → (∀ i, a ≤ i → i < a + fuel → ok i = false) →
      connectFrom ok fuel a (backoffDelay a) =
        (false, a + fuel, (List.range (fuel - 1)).map (fun j => backoffDelay (a + j))) := by
  intro fuel
  induction fuel with
  | zero => intro a h _; exact absurd rfl h
  | succ fuel ih =>
    intro a _ hall
    have hoka : ok a = false := hall a (le_refl a) (by omega)
    by_cases hf : fuel = 0
    · subst hf
      simp only [connectFrom, hoka, Bool.false_eq_true, if_false, if_pos rfl]
      rfl
    · simp only [connectFrom, hoka, Bool.false_eq_true, if_false, hf]
      rw [show min (backoffDelay a * (3/2)) 10 = backoffDelay (a + 1) from rfl]
      rw [ih (a + 1) hf (fun i hi1 hi2 => hall i (by omega) (by omega))]
      have heq : a + 1 + fuel = a + (fuel + 1) := by omega
      rw [heq]
      have hm : fuel + 1 - 1 = (fuel - 1) + 1 := by omega
      rw [hm, List.range_succ_eq_map, List.map_cons, List.map_map]
      rw [Nat.add_zero]
      refine congrArg (fun l => ((false : Bool), a + (fuel + 1), backoffDelay a :: l)) ?_
      refine List.map_congr_left ?_
      intro j _
      show backoffDelay (a + 1 + j) = backoffDelay (a + (j + 1))
      rw [Nat.add_comm j 1, ← Nat.add_assoc]

/-- C4: connect() performs at most 10 attempts; it succeeds exactly when one
of the first 10 attempts succeeds; if the first success is attempt k + 1
(zero-based index k, for any k < 10, e.g. the 4th after 3 failures) it
returns true immediately after k + 1 attempts, having slept the delays
backoffDelay 0, ..., backoffDelay (k-1); and it returns false exactly after
all 10 attempts fail, having slept 9 delays. The delays start at 2 s and are
multiplied by 1.5 and capped at 10 s. -/
theorem connect_retry_spec (ok : ℕ → Bool) :
    ((connect ok).1 = true ↔ ∃ i, i < 10 ∧ ok i = true) ∧
    (connect ok).2.1 ≤ 10 ∧
    (∀ k, k < 10 → ok k = true → (∀ j, j < k → ok j = false) →
      connect ok = (true, k + 1, (List.range k).map backoffDelay)) ∧
    ((∀ i, i < 10 → ok i = false) →
      connect ok = (false, 10, (List.range 9).map backoffDelay)) ∧
    backoffDelay 0 = 2 ∧
    (∀ n, backoffDelay (n + 1) = min (backoffDelay n * (3/2)) 10) := by
  refine ⟨?_, ?_, ?_, ?_, rfl, fun n => rfl⟩
  · rw [show connect ok = connectFrom ok 10 0 2 from rfl, connectFrom_true_iff ok 10 0 2]
    constructor
    · rintro ⟨i, _, h2, h3⟩; exact ⟨i, by omega, h3⟩
    · rintro ⟨i, h1, h2⟩; exact ⟨i, by omega, by omega, h2⟩
  · have := connectFrom_attempts_le ok 10 0 2
    simpa using this
  · intro k hk hok hprev
    have h := connectFrom_first_success ok k hok 10 0 (by omega) (by omega)
      (fun j _ hj => hprev j hj)
    rw [show connect ok = connectFrom ok 10 0 (backoffDelay 0) from rfl, h]
    rw [Nat.sub_zero]
    refine congrArg (fun l => ((true : Bool), k + 1, l)) ?_
    refine List.map_congr_left ?_
    intro j _
    simp
  · intro hall
    have h := connectFrom_all_fail ok 10 0 (by omega) (fun i _ hi => hall i hi)
    rw [show connect ok = connectFrom ok 10 0 (backoffDelay 0) from rfl, h]
    rw [show (0 : ℕ) + 10 = 10 from rfl, show (10 : ℕ) - 1 = 9 from rfl]
    refine congrArg (fun l => ((false : Bool), (10 : ℕ), l)) ?_
    refine List.map_congr_left ?_
    intro j _
    simp

/-- Witness for C4: three failed attempts followed by a success on the 4th
attempt give success after exactly 4 attempts and sleeps of 2, 3 and 4.5
seconds. -/
theorem connect_retry_spec_witness :
    connect (fun i => decide (i = 3)) = (true, 3 + 1, (List.range 3).map backoffDelay) ∧
    (List.range 3).map backoffDelay = [2, 3, 9/2] := by
  constructor
  · exact (connect_retry_spec (fun i => decide (i = 3))).2.2.1 3 (by norm_num) (by decide)
      (fun j hj => by interval_cases j <;> decide)
  · have b0 : backoffDelay 0 = 2 := rfl
    have b1 : backoffDelay 1 = 3 := by
      show min ((2 : ℚ) * (3/2)) 10 = 3
      rw [min_def]
      norm_num
    have b2 : backoffDelay 2 = 9/2 := by
      show min (backoffDelay 1 * (3/2)) 10 = 9/2
      rw [b1, min_def]
      norm_num
    rw [show List.range 3 = [0, 1, 2] from rfl, List.map_cons, List.map_cons, List.map_cons,
      List.map_nil, b0, b1, b2]

/-- C9: a CommandMessage with a JSON-representable dictionary payload,
serialised to JSON and decoded back, yields identical device_id, command and
payload fields (indeed the identical message, timestamp included). -/
theorem commandMessage_roundtrip (m : CommandMessage) :
    CommandMessage.fromJson m.toJson = some m := rfl

theorem set_device_power_state_power (id : String) (m : Option DevicePowerState)
    (b : Bool) (env : MgrEnv) :
    ((set_device_power_state id m b env).2.map (fun d => d.power_state)) = some b := rfl

/-- C1 evidence: a GET /cm request whose Basic credentials are present but do
not match the configured username/password is not rejected — the boolean
returned by verify_credentials is injected into an unused parameter and never
checked, so the handler body runs, executes the Power ON command, mutates the
shared power state and returns 200. -/
theorem cm_wrong_credentials_executes :
    verify_credentials {} { username := "admin", password := "wrongpass" } = false ∧
    (cm {} {} { username := "admin", password := "wrongpass" } "Power ON"
      exampleServerState exampleWebEnv).1 = .ok (.obj [("POWER", .str "ON")]) ∧
    (cm {} {} { username := "admin", password := "wrongpass" } "Power ON"
      exampleServerState exampleWebEnv).2.POWER = "ON" ∧
    ((cm {} {} { username := "admin", password := "wrongpass" } "Power ON"
      exampleServerState exampleWebEnv).2.manager.map (fun d => d.power_state)) =
      some true :=
  ⟨rfl, rfl, rfl, rfl⟩

/-- C5 counterexample: GET /cm?cmnd=Status 9 (with accepted credentials)
returns the power-thresholds document StatusPTH, which contains no ENERGY
block at any depth. -/
theorem status9_lacks_energy_block :
    (cm {} {} { username := "admin", password := "test1234!" } "Status 9"
      exampleServerState exampleWebEnv).1 =
      .ok (.obj [("StatusPTH", .obj
        [("PowerLow", .num 0), ("PowerHigh", .num 0), ("VoltageLow", .num 0),
         ("VoltageHigh", .num 0), ("CurrentLow", .num 0), ("CurrentHigh", .num 0)])]) ∧
    Json.hasKeyDeep (.obj [("StatusPTH", .obj
        [("PowerLow", .num 0), ("PowerHigh", .num 0), ("VoltageLow", .num 0),
         ("VoltageHigh", .num 0), ("CurrentLow", .num 0), ("CurrentHigh", .num 0)])])
      "ENERGY" = false :=
  ⟨rfl, rfl⟩

/-- C5 (amended): it is Status 10 whose document contains the ENERGY block
with Power, Voltage and Current keys; Status 9 returns the power-thresholds
document with no ENERGY block; and Status 13 (out of range) yields HTTP 400
from the /cm handler, leaving the state untouched. -/
theorem status_energy_levels (cfg : ServerConfig) (rd : RealisticData) (uptime : ℕ)
    (nowS startS : String) :
    (∃ energy : Json,
      ((get_status_response cfg rd uptime nowS startS 10).getKey "StatusSNS").bind
        (fun sns => sns.getKey "ENERGY") = some energy ∧
      "Power" ∈ energy.topKeys ∧ "Voltage" ∈ energy.topKeys ∧
      "Current" ∈ energy.topKeys) ∧
    Json.hasKeyDeep (get_status_response cfg rd uptime nowS startS 9) "ENERGY" = false ∧
    (∀ (auth : AuthConfig) (creds : HTTPBasicCredentials) (st : ServerState) (env : WebEnv),
      cm auth cfg creds "Status 13" st env =
        (.error 400 "Status level must be between 0 and 12", st)) := by
  refine ⟨⟨_, rfl, ?_, ?_, ?_⟩, rfl, fun auth creds st env => rfl⟩ <;>
    simp [Json.topKeys]

/-- C7 counterexample: GET /cm?cmnd=Status 8 falls through to the else branch
of get_status_response and returns the very same combined level-0 blob, not a
narrower level-specific sub-document. -/
theorem status8_equals_status0 :
    get_status_response {} exampleRd 0 "2024-01-01T12:00:00" "2024-01-01T00:00:00" 8 =
      get_status_response {} exampleRd 0 "2024-01-01T12:00:00" "2024-01-01T00:00:00" 0 :=
  rfl

/-- C7 (amended): for n in 1-7 and 9-12, Status n returns the level-specific
narrower sub-document (its single top-level key identifies the level), always
distinct from the combined level-0 blob; Status 8, which has no branch,
returns exactly the level-0 blob. -/
theorem status_levels_narrow (cfg : ServerConfig) (rd : RealisticData) (uptime : ℕ)
    (nowS startS : String) :
    (get_status_response cfg rd uptime nowS startS 0).topKeys = level0Keys ∧
    (∀ level : ℤ, level ∈ ([1, 2, 3, 4, 5, 6, 7, 9, 10, 11, 12] : List ℤ) →
      (get_status_response cfg rd uptime nowS startS level).topKeys =
        expectedLevelKey level ∧
      expectedLevelKey level ≠ level0Keys) ∧
    get_status_response cfg rd uptime nowS startS 8 =
      get_status_response cfg rd uptime nowS startS 0 := by
  refine ⟨rfl, ?_, rfl⟩
  intro level hlevel
  fin_cases hlevel <;> exact ⟨rfl, by decide⟩

/-- Witness for C7 (amended) at level 9 and a concrete request environment. -/
theorem status_levels_narrow_witness :
    (get_status_response {} exampleRd 0 "now" "start" 9).topKeys =
      expectedLevelKey 9 ∧
    expectedLevelKey 9 ≠ level0Keys :=
  (status_levels_narrow {} exampleRd 0 "now" "start").2.1 9 (by decide)

/-- C6: on a received power_on command the dispatcher sets the device power
state to true (in the config and in the shared profile manager), stores the
consumption recomputed by the profile model, and immediately publishes
exactly one status message reporting power_state = true, which precedes every
message published for later commands. -/
theorem power_on_publishes_true (d : DeviceSim) (msg : CommandMessage) (env : DeviceEnv)
    (rest : List (CommandMessage × DeviceEnv)) (h : msg.command = "power_on") :
    ∃ s : StatusResponse,
      handle_command d msg env = (set_power_state d true env, [Published.status s]) ∧
      s.power_state = true ∧
      (set_power_state d true env).config.power_state = true ∧
      ((set_power_state d true env).manager.map (fun x => x.power_state)) = some true ∧
      (set_power_state d true env).config.energy_consumption =
        (set_device_power_state d.config.device_id d.manager true env.mgrSet).1 ∧
      process_commands d ((msg, env) :: rest) =
        ((process_commands (set_power_state d true env) rest).1,
          Published.status s :: (process_commands (set_power_state d true env) rest).2) := by
  refine ⟨publish_status (set_power_state d true env) env, ?_, rfl, rfl, rfl, rfl, ?_⟩
  · simp only [handle_command, h, reduceIte]
  · simp only [process_commands, handle_command, h, reduceIte, List.singleton_append]

/-- Witness for C6 at a concrete device, command and environment. -/
theorem power_on_publishes_true_witness :
    ∃ s : StatusResponse,
      handle_command exampleDeviceSim examplePowerOnMsg exampleDeviceEnv =
        (set_power_state exampleDeviceSim true exampleDeviceEnv, [Published.status s]) ∧
      s.power_state = true ∧
      (set_power_state exampleDeviceSim true exampleDeviceEnv).config.power_state = true ∧
      ((set_power_state exampleDeviceSim true exampleDeviceEnv).manager.map
        (fun x => x.power_state)) = some true ∧
      (set_power_state exampleDeviceSim true exampleDeviceEnv).config.energy_consumption =
        (set_device_power_state exampleDeviceSim.config.device_id exampleDeviceSim.manager
          true exampleDeviceEnv.mgrSet).1 ∧
      process_commands exampleDeviceSim [(examplePowerOnMsg, exampleDeviceEnv)] =
        ((process_commands (set_power_state exampleDeviceSim true exampleDeviceEnv) []).1,
          Published.status s ::
            (process_commands (set_power_state exampleDeviceSim true exampleDeviceEnv) []).2) :=
  power_on_publishes_true exampleDeviceSim examplePowerOnMsg exampleDeviceEnv [] rfl

/-- C10: after a successful POST /power/\x7bon|off|toggle\x7d, and after a GET
/cm?cmnd=Power ON/OFF/TOGGLE, the shared manager's entry carries exactly the
power state contained in the HTTP response, the module POWER variable agrees,
and a subsequent GET /status (root) reports that same state; at startup, by
contrast, the POWER variable ("OFF") and the randomly initialised manager
entry need not agree. -/
theorem power_mutation_consistency (cfg : ServerConfig) (st : ServerState)
    (env env2 : WebEnv) (auth : AuthConfig) (creds : HTTPBasicCredentials) (b : Bool) :
    (∀ s : String,
      (s = "on" ∧ b = true) ∨ (s = "off" ∧ b = false) ∨
        (s = "toggle" ∧ b = !(st.POWER == "ON")) →
      (set_power cfg s st env).1 =
        .ok (.obj [("power_state", .bool b),
                   ("message", .str ("Power turned " ++ strLower s))]) ∧
      ((set_power cfg s st env).2.manager.map (fun d => d.power_state)) = some b ∧
      (set_power cfg s st env).2.POWER = onOffStr b ∧
      (root cfg (set_power cfg s st env).2 env2).1.power_state = b) ∧
    (∀ cmnd : String,
      (cmnd = "Power ON" ∧ b = true) ∨ (cmnd = "Power OFF" ∧ b = false) ∨
        (cmnd = "Power TOGGLE" ∧ b = !(st.POWER == "ON")) →
      (cm auth cfg creds cmnd st env).1 = .ok (.obj [("POWER", .str (onOffStr b))]) ∧
      ((cm auth cfg creds cmnd st env).2.manager.map (fun d => d.power_state)) = some b ∧
      (cm auth cfg creds cmnd st env).2.POWER = onOffStr b ∧
      (root cfg (cm auth cfg creds cmnd st env).2 env2).1.power_state = b) ∧
    (∃ st0 : ServerState, st0.POWER = "OFF" ∧
      st0.manager = some (create_device_state cfg.DEVICE_ID ledLampe true 0) ∧
      (st0.manager.map (fun d => d.power_state)) ≠ some (st0.POWER == "ON")) := by
  refine ⟨?_, ?_, ?_⟩
  · rintro s (⟨hs, hb⟩ | ⟨hs, hb⟩ | ⟨hs, hb⟩) <;> subst hs <;> subst hb <;>
      exact ⟨rfl, rfl, rfl, rfl⟩
  · rintro cmnd (⟨hc, hb⟩ | ⟨hc, hb⟩ | ⟨hc, hb⟩) <;> subst hc <;> subst hb <;>
      exact ⟨rfl, rfl, rfl, rfl⟩
  · refine ⟨{ POWER := "OFF",
              manager := some (create_device_state cfg.DEVICE_ID ledLampe true 0) },
            rfl, rfl, ?_⟩
    show some true ≠ some ("OFF" == "ON")
    simp

/-- Witness for C10: POST /power/on on the example state yields a 200 response
carrying power_state = true, mirrored by the manager entry, the POWER
variable and a subsequent GET /status. -/
theorem power_mutation_consistency_witness :
    (set_power {} "on" exampleServerState exampleWebEnv).1 =
      .ok (.obj [("power_state", .bool true),
                 ("message", .str ("Power turned " ++ strLower "on"))]) ∧
    ((set_power {} "on" exampleServerState exampleWebEnv).2.manager.map
      (fun d => d.power_state)) = some true ∧
    (set_power {} "on" exampleServerState exampleWebEnv).2.POWER = onOffStr true ∧
    (root {} (set_power {} "on" exampleServerState exampleWebEnv).2
      exampleWebEnv).1.power_state = true :=
  (power_mutation_consistency {} exampleServerState exampleWebEnv exampleWebEnv {}
    { username := "admin", password := "test1234!" } true).1 "on" (Or.inl ⟨rfl, rfl⟩)

end TasmotaSim
